import Mathlib

/-!
Verification of the report-generation pipeline of the backend
(`extract_and_merge_data`, `map_mecra`, `preview_report` in
`backend/main.py`): a shallow embedding of the pandas data flow, with
spreadsheet numbers modelled exactly as rationals.
-/

namespace MTMReport

open scoped List

/-- A spreadsheet cell as pandas sees it: missing (NaN/None), a string, or a
number. -/
inductive Cell where
  | missing : Cell
  | str : String → Cell
  | num : ℚ → Cell
deriving DecidableEq

/-- One row: an ordered map from column name to cell.  A field absent from a
row reads as `missing` (the NaN padding of column outer-join concatenation). -/
abbrev Record := List (String × Cell)

/-- Look up a column in a row; absent fields are missing. -/
def getCol (r : Record) (c : String) : Cell :=
  match r.find? (fun p => p.1 == c) with
  | some p => p.2
  | none => Cell.missing

/-- Assign a column on a row (pandas `df[col] = ...` seen row-wise): overwrite
in place when the field exists, else append it as a new last field. -/
def setCol (r : Record) (c : String) (v : Cell) : Record :=
  if r.any (fun p => p.1 == c) then
    r.map (fun p => if p.1 == c then (c, v) else p)
  else r ++ [(c, v)]

/-- An in-memory table: column list plus rows. -/
structure DataFrame where
  cols : List String
  rows : List Record
deriving DecidableEq

/-- pandas `df[col] = f(row)` over a whole frame: the column is appended to the
column list when new, and every row gets the assigned value. -/
def dfSetCol (df : DataFrame) (c : String) (f : Record → Cell) : DataFrame :=
  { cols := if df.cols.contains c then df.cols else df.cols ++ [c],
    rows := df.rows.map (fun r => setCol r c (f r)) }

/-- Model of `pd.concat(all_dfs, ignore_index=True)`: all rows in order, columns the
union in order of first appearance (outer join by column name). -/
def concatDFs (dfs : List DataFrame) : DataFrame :=
  { cols := dfs.foldl (fun acc df => acc ++ df.cols.filter (fun c => !(acc.contains c))) [],
    rows := dfs.foldl (fun acc df => acc ++ df.rows) [] }

/-- Model of `pd.notna` of a row's `Mecra` cell. -/
def notnaMecra (r : Record) : Bool :=
  match getCol r "Mecra" with
  | Cell.missing => false
  | _ => true

/-- Model of `merged_df.dropna(subset=['Mecra'])`, applied only when the column is
present — exactly the guarded filter of the source. -/
def dropnaMecra (df : DataFrame) : DataFrame :=
  if df.cols.contains "Mecra" then
    { df with rows := df.rows.filter notnaMecra }
  else df

/-- Does the second char list start with the first? -/
def matchHead : List Char → List Char → Bool
  | [], _ => true
  | _ :: _, [] => false
  | a :: as, b :: bs => a == b && matchHead as bs

/-- Substring occurrence on char lists. -/
def containsSub (needle : List Char) : List Char → Bool
  | [] => matchHead needle []
  | b :: bs => matchHead needle (b :: bs) || containsSub needle bs

/-- Python's `needle in hay` on strings. -/
def strContains (hay needle : String) : Bool :=
  containsSub needle.toList hay.toList

/-- Python `str.strip()`: drop whitespace from both ends. -/
def trimChars (cs : List Char) : List Char :=
  ((cs.dropWhile Char.isWhitespace).reverse.dropWhile Char.isWhitespace).reverse

/-- Python `strip()` on strings. -/
def strTrim (s : String) : String :=
  String.mk (trimChars s.toList)

/-- Python `str(val)` for a cell (numbers rendered in Lean's rational
notation; no substring rule of the normalizer can match a numeral either
way). -/
def cellStr : Cell → String
  | Cell.missing => ""
  | Cell.str s => s
  | Cell.num q => toString q

/-- The source function `map_mecra` from `backend/main.py`: NaN → "Diğer", else case-sensitive
substring rules on the stripped string, else the stripped string itself. -/
def map_mecra (c : Cell) : String :=
  match c with
  | Cell.missing => "Diğer"
  | _ =>
    let val_str := strTrim (cellStr c)
    if strContains val_str "Elektronik Basın" then "İnternet"
    else if strContains val_str "Görsel Basın" then "TV"
    else if strContains val_str "Yazılı Basın" then "Yazılı Basın"
    else val_str

/-- Add the `Mecra_Grup` column: `map_mecra` of the raw `Mecra` value when the
column exists, the constant "Diğer" otherwise. -/
def addMecraGrup (df : DataFrame) : DataFrame :=
  if df.cols.contains "Mecra" then
    dfSetCol df "Mecra_Grup" (fun r => Cell.str (map_mecra (getCol r "Mecra")))
  else
    dfSetCol df "Mecra_Grup" (fun _ => Cell.str "Diğer")

/-- Numeric value of an all-digit char list. -/
def digitsToNat (cs : List Char) : ℕ :=
  cs.foldl (fun n c => n * 10 + (c.toNat - 48)) 0

/-- Parse an unsigned decimal numeral: digits, optionally a point and a
fraction part. -/
def parseUnsigned (cs : List Char) : Option ℚ :=
  let intPart := cs.takeWhile Char.isDigit
  let rest := cs.dropWhile Char.isDigit
  match rest with
  | [] => if intPart.isEmpty then none else some (digitsToNat intPart)
  | '.' :: frac =>
      if frac.all Char.isDigit && !(intPart.isEmpty && frac.isEmpty) then
        some ((digitsToNat intPart : ℚ) + (digitsToNat frac : ℚ) / ((10 : ℚ) ^ frac.length))
      else none
  | _ => none

/-- Model of `pd.to_numeric(·, errors='coerce')` on one string: a decimal number, or
NaN when unparseable. -/
def parseNumeric (s : String) : Option ℚ :=
  match (strTrim s).toList with
  | '-' :: cs => (parseUnsigned cs).map (fun q => -q)
  | '+' :: cs => parseUnsigned cs
  | cs => parseUnsigned cs

/-- One cell after `pd.to_numeric(errors='coerce').fillna(0)`. -/
def coerceCell : Cell → Cell
  | Cell.missing => Cell.num 0
  | Cell.num q => Cell.num q
  | Cell.str s => Cell.num ((parseNumeric s).getD 0)

/-- The two guarded numeric conversions of the source, in source order. -/
def coerceNumericCols (df : DataFrame) : DataFrame :=
  let df1 :=
    if df.cols.contains "Erişim" then
      dfSetCol df "Erişim" (fun r => coerceCell (getCol r "Erişim"))
    else df
  if df1.cols.contains "Re.Eş. (TRY)" then
    dfSetCol df1 "Re.Eş. (TRY)" (fun r => coerceCell (getCol r "Re.Eş. (TRY)"))
  else df1

/-- The group label of a row (its `Mecra_Grup` cell, always a string once the
column has been assigned). -/
def rowGroup (r : Record) : String :=
  cellStr (getCol r "Mecra_Grup")

/-- Numeric reading of a cell (0 for anything non-numeric; after coercion all
relevant cells are numeric). -/
def cellNum : Cell → ℚ
  | Cell.num q => q
  | _ => 0

/-- Code-point lexicographic comparison of char lists (how Python compares
strings). -/
def charsLt : List Char → List Char → Bool
  | [], [] => false
  | [], _ :: _ => true
  | _ :: _, [] => false
  | a :: as, b :: bs => a.toNat < b.toNat || (a == b && charsLt as bs)

/-- The relation `s ≤ t` in Python's string order. -/
def strLE (s t : String) : Prop :=
  charsLt t.toList s.toList = false

instance : DecidableRel strLE := fun s t =>
  inferInstanceAs (Decidable (charsLt t.toList s.toList = false))

/-- groupby keys: the distinct observed labels, sorted (pandas `groupby`
defaults to `sort=True`, sorting group keys as strings). -/
def groupKeys (df : DataFrame) : List String :=
  ((df.rows.map rowGroup).dedup).insertionSort strLE

/-- Model of `groupby('Mecra_Grup').size()` for one key. -/
def countLabel (df : DataFrame) (g : String) : ℕ :=
  (df.rows.filter (fun r => rowGroup r == g)).length

/-- Model of `groupby('Mecra_Grup')[c].sum()` for one key. -/
def sumColFor (df : DataFrame) (c g : String) : ℚ :=
  ((df.rows.filter (fun r => rowGroup r == g)).map (fun r => cellNum (getCol r c))).sum

/-- One summary row: group label, count, and the two optional metric sums
(present iff the corresponding column exists in the merged frame). -/
structure SummaryRow where
  mecra : String
  haberAdedi : ℕ
  erisim : Option ℚ
  reklam : Option ℚ
deriving DecidableEq

/-- The summary before display sorting: `groupby.size` plus the optional
groupby sums merged on the key, one row per key in key order. -/
def buildSummary (df : DataFrame) : List SummaryRow :=
  (groupKeys df).map (fun g =>
    { mecra := g
      haberAdedi := countLabel df g
      erisim := if df.cols.contains "Erişim" then some (sumColFor df "Erişim" g) else none
      reklam := if df.cols.contains "Re.Eş. (TRY)" then some (sumColFor df "Re.Eş. (TRY)" g) else none })

/-- The fixed display priority `{'Yazılı Basın': 0, 'İnternet': 1, 'TV': 2}`
with `.fillna(99)`. -/
def sortOrder (g : String) : ℕ :=
  if g = "Yazılı Basın" then 0
  else if g = "İnternet" then 1
  else if g = "TV" then 2
  else 99

/-- Comparison of summary rows by display priority. -/
def summaryLE (a b : SummaryRow) : Prop :=
  sortOrder a.mecra ≤ sortOrder b.mecra

instance : DecidableRel summaryLE := fun a b =>
  Nat.decLe (sortOrder a.mecra) (sortOrder b.mecra)

instance : IsTotal SummaryRow summaryLE :=
  ⟨fun a b => Nat.le_total (sortOrder a.mecra) (sortOrder b.mecra)⟩

instance : IsTrans SummaryRow summaryLE :=
  ⟨fun _ _ _ hab hbc => Nat.le_trans hab hbc⟩

/-- Model of `summary.sort_values('sort_order')` ascending on the priority
key.  The source calls `sort_values` with its default `kind='quicksort'`: the
contract pandas documents for that kind is only a priority-sorted permutation
of the input, NOT a stable one (equal-priority rows may be reordered once the
frame exceeds numpy introsort's insertion threshold).  The executable model
here uses an insertion sort, which satisfies that sorted-permutation contract;
no theorem below relies on the model's incidental stability — the stability
the spec asks of this sort is a guarantee the source does not provide, treated
as a code bug under C3. -/
def sortSummary (s : List SummaryRow) : List SummaryRow :=
  s.insertionSort summaryLE

/-- An HTTPException as raised by the pipeline. -/
structure HTTPError where
  status : ℕ
  detail : String
deriving DecidableEq

/-- The source function `extract_and_merge_data`.  Each uploaded file is given as its parse
result: `none` means `pd.read_excel` raised and the file is logged and
skipped. -/
def extract_and_merge_data (files : List (Option DataFrame)) :
    Except HTTPError (DataFrame × List SummaryRow) :=
  if files.isEmpty then
    Except.error ⟨400, "Dosya yüklenmedi"⟩
  else
    let all_dfs := files.filterMap id
    if all_dfs.isEmpty then
      Except.error ⟨400, "Geçerli bir Excel dosyası okunamadı"⟩
    else
      let merged := coerceNumericCols (addMecraGrup (dropnaMecra (concatDFs all_dfs)))
      Except.ok (merged, sortSummary (buildSummary merged))

/-- The totals dictionary: `Mecra` is the literal "Toplam" marker, the numeric
fields are the sums of the numeric summary columns (`select_dtypes` keeps
`Haber Adedi` always and each metric column iff it exists). -/
structure TotalsDict where
  haberAdedi : ℕ
  erisim : Option ℚ
  reklam : Option ℚ
deriving DecidableEq

/-- The Chart.js payload of the preview endpoint. -/
structure ChartData where
  labels : List String
  haber_adedi : List ℕ
  erisim : List ℚ
  reklam : List ℚ
deriving DecidableEq

/-- The `data` object of a successful preview response. -/
structure PreviewData where
  summary_table : List SummaryRow
  totals : TotalsDict
  chart_data : ChartData
deriving DecidableEq

/-- The observable outcome of the preview endpoint: a success body, a
`{"success": false, "error": e}` body, or a re-raised HTTPException. -/
inductive PreviewResponse where
  | ok : PreviewData → PreviewResponse
  | failure : String → PreviewResponse
  | httpError : HTTPError → PreviewResponse
deriving DecidableEq

/-- Totals over the summary rows, as in `preview_report`/`generate_report`:
each numeric column of the summary frame summed. -/
def computeTotals (s : List SummaryRow) (hasErisim hasReklam : Bool) : TotalsDict :=
  { haberAdedi := (s.map (fun r => r.haberAdedi)).sum
    erisim := if hasErisim then some ((s.map (fun r => r.erisim.getD 0)).sum) else none
    reklam := if hasReklam then some ((s.map (fun r => r.reklam.getD 0)).sum) else none }

/-- The source function `preview_report`: HTTPExceptions raised by the extraction are re-raised
(`except HTTPException: raise`); any other exception would be returned as a
`{"success": false, "error": str(e)}` body. -/
def preview_report (files : List (Option DataFrame)) : PreviewResponse :=
  match extract_and_merge_data files with
  | Except.error e => PreviewResponse.httpError e
  | Except.ok (merged, summary) =>
      let hasE := merged.cols.contains "Erişim"
      let hasR := merged.cols.contains "Re.Eş. (TRY)"
      PreviewResponse.ok
        { summary_table := summary
          totals := computeTotals summary hasE hasR
          chart_data :=
            { labels := summary.map (fun r => r.mecra)
              haber_adedi := summary.map (fun r => r.haberAdedi)
              erisim := if hasE then summary.map (fun r => r.erisim.getD 0) else []
              reklam := if hasR then summary.map (fun r => r.reklam.getD 0) else [] } }

/-- Is a response the `{"success": false, "error": ...}` JSON shape? -/
def isSuccessFalseBody : PreviewResponse → Bool
  | PreviewResponse.failure _ => true
  | _ => false

/-- The spec's ChannelNormalizer rule set read literally ("a missing/empty
value yields Diğer", then the substring rules, then the trimmed raw value),
for comparison with the source's `map_mecra`. -/
def map_mecra_spec (c : Cell) : String :=
  if c = Cell.missing ∨ cellStr c = "" then "Diğer"
  else
    let val_str := strTrim (cellStr c)
    if strContains val_str "Elektronik Basın" then "İnternet"
    else if strContains val_str "Görsel Basın" then "TV"
    else if strContains val_str "Yazılı Basın" then "Yazılı Basın"
    else val_str

/-! ### Record-level lemmas about column access and assignment -/

theorem getCol_cons (a : String × Cell) (as : Record) (c : String) :
    getCol (a :: as) c = if a.1 = c then a.2 else getCol as c := by
  by_cases h : a.1 = c
  · rw [getCol, List.find?_cons_of_pos _ (by simpa using h), if_pos h]
  · rw [getCol, List.find?_cons_of_neg _ (by simpa using h), if_neg h]
    rfl

theorem getCol_map_set_self (r : Record) (c : String) (v : Cell)
    (h : r.any (fun p => p.1 == c) = true) :
    getCol (r.map (fun p => if p.1 == c then (c, v) else p)) c = v := by
  induction r with
  | nil => simp at h
  | cons a as ih =>
    by_cases ha : a.1 = c
    · simp [List.map_cons, getCol_cons, ha]
    · have h' : as.any (fun p => p.1 == c) = true := by
        simpa [List.any_cons, ha] using h
      simpa [List.map_cons, getCol_cons, ha] using ih h'

theorem getCol_append_single_of_absent (r : Record) (c : String) (v : Cell)
    (h : r.any (fun p => p.1 == c) = false) :
    getCol (r ++ [(c, v)]) c = v := by
  induction r with
  | nil => simp [getCol_cons]
  | cons a as ih =>
    have ha : ¬ a.1 = c := by
      intro hc; simp [List.any_cons, hc] at h
    have h' : as.any (fun p => p.1 == c) = false := by
      simpa [List.any_cons, ha] using h
    simpa [List.cons_append, getCol_cons, ha] using ih h'

theorem getCol_setCol_self (r : Record) (c : String) (v : Cell) :
    getCol (setCol r c v) c = v := by
  unfold setCol
  cases hany : r.any (fun p => p.1 == c) with
  | true =>
    simp only [hany, if_true]
    exact getCol_map_set_self r c v hany
  | false =>
    simp only [hany, Bool.false_eq_true, if_false]
    exact getCol_append_single_of_absent r c v hany

theorem getCol_map_set_ne (r : Record) (c c' : String) (v : Cell) (h : c' ≠ c) :
    getCol (r.map (fun p => if p.1 == c then (c, v) else p)) c' = getCol r c' := by
  induction r with
  | nil => simp
  | cons a as ih =>
    by_cases ha : a.1 = c
    · have hcc : ¬ c = c' := fun hc => h hc.symm
      have ha' : ¬ a.1 = c' := by rw [ha]; exact hcc
      have hf : (if (a.1 == c) = true then (c, v) else a) = (c, v) := by simp [ha]
      simp only [List.map_cons, hf, getCol_cons, if_neg hcc, if_neg ha']
      exact ih
    · have hf : (if (a.1 == c) = true then (c, v) else a) = a := by simp [ha]
      by_cases ha' : a.1 = c'
      · simp only [List.map_cons, hf, getCol_cons, if_pos ha']
      · simp only [List.map_cons, hf, getCol_cons, if_neg ha']
        exact ih

theorem getCol_append_single_ne (r : Record) (c c' : String) (v : Cell) (h : c' ≠ c) :
    getCol (r ++ [(c, v)]) c' = getCol r c' := by
  induction r with
  | nil =>
    have : ¬ c = c' := fun hc => h hc.symm
    simp [getCol_cons, this]
  | cons a as ih =>
    by_cases ha : a.1 = c'
    · simp [List.cons_append, getCol_cons, ha]
    · simpa [List.cons_append, getCol_cons, ha] using ih

theorem getCol_setCol_ne (r : Record) (c c' : String) (v : Cell) (h : c' ≠ c) :
    getCol (setCol r c v) c' = getCol r c' := by
  unfold setCol
  by_cases hany : r.any (fun p => p.1 == c) = true
  · rw [if_pos hany]; exact getCol_map_set_ne r c c' v h
  · rw [if_neg hany]; exact getCol_append_single_ne r c c' v h

/-! ### Frame-level structural lemmas -/

/-- Row-level view of the two numeric conversions, with the same presence
guards as the source. -/
def coerceRow (hasE hasR : Bool) (r : Record) : Record :=
  let r1 := if hasE then setCol r "Erişim" (coerceCell (getCol r "Erişim")) else r
  if hasR then setCol r1 "Re.Eş. (TRY)" (coerceCell (getCol r1 "Re.Eş. (TRY)")) else r1

theorem dropnaMecra_cols (df : DataFrame) : (dropnaMecra df).cols = df.cols := by
  unfold dropnaMecra; split <;> rfl

theorem addMecraGrup_rows (df : DataFrame) :
    (addMecraGrup df).rows = df.rows.map (fun r =>
      setCol r "Mecra_Grup" (Cell.str
        (if df.cols.contains "Mecra" then map_mecra (getCol r "Mecra") else "Diğer"))) := by
  unfold addMecraGrup
  by_cases h : "Mecra" ∈ df.cols <;> simp [dfSetCol, h]

theorem addMecraGrup_cols_contains (df : DataFrame) (c : String) (h : ¬ c = "Mecra_Grup") :
    (addMecraGrup df).cols.contains c = df.cols.contains c := by
  unfold addMecraGrup dfSetCol
  by_cases hm : "Mecra" ∈ df.cols <;> by_cases hg : "Mecra_Grup" ∈ df.cols <;>
    simp [hm, hg, h]

theorem coerceNumericCols_cols (df : DataFrame) : (coerceNumericCols df).cols = df.cols := by
  unfold coerceNumericCols
  by_cases hE : "Erişim" ∈ df.cols <;> by_cases hR : "Re.Eş. (TRY)" ∈ df.cols <;>
    simp [dfSetCol, hE, hR]

theorem coerceNumericCols_rows (df : DataFrame) :
    (coerceNumericCols df).rows =
      df.rows.map (coerceRow (df.cols.contains "Erişim") (df.cols.contains "Re.Eş. (TRY)")) := by
  unfold coerceNumericCols coerceRow
  by_cases hE : "Erişim" ∈ df.cols <;> by_cases hR : "Re.Eş. (TRY)" ∈ df.cols <;>
    simp [dfSetCol, hE, hR, List.map_map, Function.comp]

theorem getCol_coerceRow_ne (hasE hasR : Bool) (r : Record) (c : String)
    (hE : c ≠ "Erişim") (hR : c ≠ "Re.Eş. (TRY)") :
    getCol (coerceRow hasE hasR r) c = getCol r c := by
  unfold coerceRow
  cases hasE <;> cases hasR <;>
    simp [getCol_setCol_ne _ _ _ _ hR, getCol_setCol_ne _ _ _ _ hE]

theorem getCol_coerceRow_erisim (hasE hasR : Bool) (r : Record) :
    getCol (coerceRow hasE hasR r) "Erişim" =
      if hasE then coerceCell (getCol r "Erişim") else getCol r "Erişim" := by
  have hne : ("Erişim" : String) ≠ "Re.Eş. (TRY)" := by decide
  unfold coerceRow
  cases hasE <;> cases hasR <;>
    simp [getCol_setCol_ne _ _ _ _ hne, getCol_setCol_self]

theorem getCol_coerceRow_reklam (hasE hasR : Bool) (r : Record) :
    getCol (coerceRow hasE hasR r) "Re.Eş. (TRY)" =
      if hasR then coerceCell (getCol r "Re.Eş. (TRY)") else getCol r "Re.Eş. (TRY)" := by
  have hne : ("Re.Eş. (TRY)" : String) ≠ "Erişim" := by decide
  unfold coerceRow
  cases hasE <;> cases hasR <;>
    simp [getCol_setCol_ne _ _ _ _ hne, getCol_setCol_self]

theorem rowGroup_coerceRow (hasE hasR : Bool) (r : Record) :
    rowGroup (coerceRow hasE hasR r) = rowGroup r := by
  unfold rowGroup
  rw [getCol_coerceRow_ne _ _ _ _ (by decide) (by decide)]

theorem rowGroup_setGrup (r : Record) (g : String) :
    rowGroup (setCol r "Mecra_Grup" (Cell.str g)) = g := by
  unfold rowGroup
  rw [getCol_setCol_self]
  rfl

/-! ### Unfolding the extraction pipeline -/

/-- The concatenated frame of the successfully parsed files. -/
def baseOf (files : List (Option DataFrame)) : DataFrame :=
  concatDFs (files.filterMap id)

/-- The merged frame produced by a successful extraction. -/
def mergedOf (files : List (Option DataFrame)) : DataFrame :=
  coerceNumericCols (addMecraGrup (dropnaMecra (baseOf files)))

theorem extract_empty {files : List (Option DataFrame)} (h : files = []) :
    extract_and_merge_data files = Except.error ⟨400, "Dosya yüklenmedi"⟩ := by
  subst h; rfl

theorem extract_none_valid {files : List (Option DataFrame)} (h1 : files ≠ [])
    (h2 : files.filterMap id = []) :
    extract_and_merge_data files = Except.error ⟨400, "Geçerli bir Excel dosyası okunamadı"⟩ := by
  unfold extract_and_merge_data
  rw [if_neg (by simpa using h1)]
  simp only [h2]
  rfl

theorem extract_valid {files : List (Option DataFrame)} (h1 : files ≠ [])
    (h2 : files.filterMap id ≠ []) :
    extract_and_merge_data files =
      Except.ok (mergedOf files, sortSummary (buildSummary (mergedOf files))) := by
  unfold extract_and_merge_data
  rw [if_neg (by simpa using h1), if_neg (by simpa using h2)]
  rfl

theorem extract_ok_elim {files : List (Option DataFrame)} {m : DataFrame}
    {s : List SummaryRow} (h : extract_and_merge_data files = Except.ok (m, s)) :
    m = mergedOf files ∧ s = sortSummary (buildSummary m) ∧
      files ≠ [] ∧ files.filterMap id ≠ [] := by
  by_cases h1 : files = []
  · rw [extract_empty h1] at h; exact absurd h (by simp)
  · by_cases h2 : files.filterMap id = []
    · rw [extract_none_valid h1 h2] at h; exact absurd h (by simp)
    · rw [extract_valid h1 h2] at h
      have hm : m = mergedOf files := by
        injection h with h'; exact (congrArg Prod.fst h').symm
      have hs : s = sortSummary (buildSummary (mergedOf files)) := by
        injection h with h'; exact (congrArg Prod.snd h').symm
      exact ⟨hm, by rw [hm]; exact hs, h1, h2⟩

/-! ### Partition and sum lemmas -/

theorem sum_filter_split {α : Type} {M : Type} [AddCommMonoid M] (p : α → Bool) (f : α → M)
    (l : List α) :
    ((l.filter p).map f).sum + ((l.filter (fun a => !(p a))).map f).sum = (l.map f).sum := by
  induction l with
  | nil => simp
  | cons a as ih =>
    cases hp : p a with
    | true =>
      simp [List.filter_cons, hp]
      rw [add_assoc, ih]
    | false =>
      simp [List.filter_cons, hp]
      rw [add_left_comm, ih]

theorem partition_sum {α : Type} {M : Type} [AddCommMonoid M] (key : α → String) (f : α → M) :
    ∀ (keys : List String) (l : List α), keys.Nodup → (∀ a ∈ l, key a ∈ keys) →
      (keys.map (fun g => ((l.filter (fun a => key a == g)).map f).sum)).sum = (l.map f).sum := by
  intro keys
  induction keys with
  | nil =>
    intro l _ hcov
    have hl : l = [] := by
      cases l with
      | nil => rfl
      | cons a as => exact absurd (hcov a (List.mem_cons_self a as)) (List.not_mem_nil _)
    subst hl; simp
  | cons g gs ih =>
    intro l hnd hcov
    have hnd' : gs.Nodup := (List.nodup_cons.mp hnd).2
    have hg : g ∉ gs := (List.nodup_cons.mp hnd).1
    have hcov' : ∀ a ∈ l.filter (fun a => !(key a == g)), key a ∈ gs := by
      intro a ha
      have hmem : a ∈ l := List.mem_of_mem_filter ha
      have hne : ¬ key a = g := by simpa using List.of_mem_filter ha
      rcases List.mem_cons.mp (hcov a hmem) with h | h
      · exact absurd h hne
      · exact h
    have hfilters : ∀ g' ∈ gs,
        l.filter (fun a => key a == g') =
          (l.filter (fun a => !(key a == g))).filter (fun a => key a == g') := by
      intro g' hg'
      rw [List.filter_filter]
      apply List.filter_congr
      intro a _
      cases hk : (key a == g') with
      | false => simp
      | true =>
        have hkey : key a = g' := by simpa using hk
        have hgg : ¬ g' = g := by
          intro hgg
          rw [hgg] at hg'
          exact hg hg'
        have hne : ¬ key a = g := by rw [hkey]; exact hgg
        simp [hkey, hne, hgg]
    calc (((g :: gs).map
            (fun g' => ((l.filter (fun a => key a == g')).map f).sum)).sum)
        = ((l.filter (fun a => key a == g)).map f).sum +
            (gs.map (fun g' => ((l.filter (fun a => key a == g')).map f).sum)).sum := by
          simp
      _ = ((l.filter (fun a => key a == g)).map f).sum +
            (gs.map (fun g' =>
              (((l.filter (fun a => !(key a == g))).filter (fun a => key a == g')).map f).sum)).sum := by
          congr 1
          apply congrArg List.sum
          apply List.map_congr_left
          intro g' hg'
          rw [hfilters g' hg']
      _ = ((l.filter (fun a => key a == g)).map f).sum +
            ((l.filter (fun a => !(key a == g))).map f).sum := by
          rw [ih (l.filter (fun a => !(key a == g))) hnd' hcov']
      _ = (l.map f).sum := sum_filter_split _ f l

/-! ### groupKeys, buildSummary, and sorting lemmas -/

theorem groupKeys_nodup (df : DataFrame) : (groupKeys df).Nodup :=
  (List.perm_insertionSort strLE _).nodup_iff.mpr (List.nodup_dedup _)

theorem mem_groupKeys (df : DataFrame) (g : String) :
    g ∈ groupKeys df ↔ g ∈ df.rows.map rowGroup := by
  unfold groupKeys
  rw [List.mem_insertionSort, List.mem_dedup]

theorem groupKeys_cover (df : DataFrame) : ∀ r ∈ df.rows, rowGroup r ∈ groupKeys df := by
  intro r hr
  exact (mem_groupKeys df _).mpr (List.mem_map_of_mem rowGroup hr)

theorem buildSummary_map_mecra (df : DataFrame) :
    (buildSummary df).map (fun r => r.mecra) = groupKeys df := by
  unfold buildSummary
  rw [List.map_map]
  have h : ((fun r : SummaryRow => r.mecra) ∘ fun g =>
      ({ mecra := g, haberAdedi := countLabel df g,
         erisim := if df.cols.contains "Erişim" then some (sumColFor df "Erişim" g) else none,
         reklam := if df.cols.contains "Re.Eş. (TRY)" then some (sumColFor df "Re.Eş. (TRY)" g)
           else none } : SummaryRow)) = id := by
    funext g
    rfl
  rw [h, List.map_id]

theorem sortSummary_perm (s : List SummaryRow) : sortSummary s ~ s :=
  List.perm_insertionSort summaryLE s

/-! ### Derived pipeline lemmas -/

theorem mergedOf_cols_contains (files : List (Option DataFrame)) (c : String)
    (h : ¬ c = "Mecra_Grup") :
    (mergedOf files).cols.contains c = (baseOf files).cols.contains c := by
  unfold mergedOf
  rw [coerceNumericCols_cols, addMecraGrup_cols_contains _ _ h, dropnaMecra_cols]

theorem mergedOf_rows (files : List (Option DataFrame)) :
    (mergedOf files).rows =
      (dropnaMecra (baseOf files)).rows.map (fun r =>
        coerceRow ((baseOf files).cols.contains "Erişim")
          ((baseOf files).cols.contains "Re.Eş. (TRY)")
          (setCol r "Mecra_Grup" (Cell.str
            (if (baseOf files).cols.contains "Mecra"
             then map_mecra (getCol r "Mecra") else "Diğer")))) := by
  unfold mergedOf
  rw [coerceNumericCols_rows, addMecraGrup_rows, List.map_map,
      addMecraGrup_cols_contains _ "Erişim" (by decide),
      addMecraGrup_cols_contains _ "Re.Eş. (TRY)" (by decide),
      dropnaMecra_cols]
  rfl

theorem rowGroup_merged_row (hasE hasR : Bool) (r : Record) (g : String) :
    rowGroup (coerceRow hasE hasR (setCol r "Mecra_Grup" (Cell.str g))) = g := by
  rw [rowGroup_coerceRow, rowGroup_setGrup]

theorem getCol_mecra_merged_row (hasE hasR : Bool) (r : Record) (v : Cell) :
    getCol (coerceRow hasE hasR (setCol r "Mecra_Grup" v)) "Mecra" = getCol r "Mecra" := by
  rw [getCol_coerceRow_ne _ _ _ _ (by decide) (by decide),
      getCol_setCol_ne _ _ _ _ (by decide)]

theorem getCol_grup_merged_row (hasE hasR : Bool) (r : Record) (g : String) :
    getCol (coerceRow hasE hasR (setCol r "Mecra_Grup" (Cell.str g))) "Mecra_Grup" =
      Cell.str g := by
  rw [getCol_coerceRow_ne _ _ _ _ (by decide) (by decide), getCol_setCol_self]

theorem dropnaMecra_notna (df : DataFrame) (h : df.cols.contains "Mecra" = true) :
    ∀ r ∈ (dropnaMecra df).rows, notnaMecra r = true := by
  unfold dropnaMecra
  simp only [h, if_true]
  intro r hr
  exact List.of_mem_filter hr

theorem dropnaMecra_id (df : DataFrame) (h : df.cols.contains "Mecra" = false) :
    dropnaMecra df = df := by
  unfold dropnaMecra
  rw [if_neg (by rw [h]; simp)]

/-! ### Summary sums -/

theorem length_eq_sum_ones {α : Type} (l : List α) :
    (l.map (fun _ => (1 : ℕ))).sum = l.length := by
  induction l with
  | nil => rfl
  | cons a as ih => simp [ih, Nat.add_comm]

theorem groupKeys_count_sum (df : DataFrame) :
    ((groupKeys df).map (fun g => countLabel df g)).sum = df.rows.length := by
  have h := partition_sum rowGroup (fun _ => (1 : ℕ)) (groupKeys df) df.rows
    (groupKeys_nodup df) (groupKeys_cover df)
  rw [length_eq_sum_ones] at h
  rw [← h]
  apply congrArg List.sum
  apply List.map_congr_left
  intro g _
  unfold countLabel
  rw [← length_eq_sum_ones (df.rows.filter (fun r => rowGroup r == g))]

theorem groupKeys_sum_col (df : DataFrame) (c : String) :
    ((groupKeys df).map (fun g => sumColFor df c g)).sum =
      (df.rows.map (fun r => cellNum (getCol r c))).sum := by
  have h := partition_sum rowGroup (fun r => cellNum (getCol r c)) (groupKeys df) df.rows
    (groupKeys_nodup df) (groupKeys_cover df)
  exact h

theorem buildSummary_count_sum (df : DataFrame) :
    ((buildSummary df).map (fun r => r.haberAdedi)).sum = df.rows.length := by
  unfold buildSummary
  rw [List.map_map]
  simp only [Function.comp_def]
  exact groupKeys_count_sum df

theorem buildSummary_erisim_sum (df : DataFrame) (h : df.cols.contains "Erişim" = true) :
    ((buildSummary df).map (fun r => r.erisim.getD 0)).sum =
      (df.rows.map (fun r => cellNum (getCol r "Erişim"))).sum := by
  unfold buildSummary
  rw [List.map_map]
  simp only [Function.comp_def, h, if_true, Option.getD_some]
  exact groupKeys_sum_col df "Erişim"

theorem buildSummary_reklam_sum (df : DataFrame) (h : df.cols.contains "Re.Eş. (TRY)" = true) :
    ((buildSummary df).map (fun r => r.reklam.getD 0)).sum =
      (df.rows.map (fun r => cellNum (getCol r "Re.Eş. (TRY)"))).sum := by
  unfold buildSummary
  rw [List.map_map]
  simp only [Function.comp_def, h, if_true, Option.getD_some]
  exact groupKeys_sum_col df "Re.Eş. (TRY)"

theorem mem_buildSummary_spec (df : DataFrame) (row : SummaryRow) (h : row ∈ buildSummary df) :
    row.haberAdedi = countLabel df row.mecra ∧
    row.erisim = (if df.cols.contains "Erişim" then some (sumColFor df "Erişim" row.mecra)
      else none) ∧
    row.reklam = (if df.cols.contains "Re.Eş. (TRY)"
      then some (sumColFor df "Re.Eş. (TRY)" row.mecra) else none) ∧
    row.mecra ∈ groupKeys df := by
  unfold buildSummary at h
  rcases List.mem_map.mp h with ⟨g, hg, rfl⟩
  exact ⟨rfl, rfl, rfl, hg⟩

theorem sortSummary_map_sum {M : Type} [AddCommMonoid M] (s : List SummaryRow)
    (f : SummaryRow → M) :
    ((sortSummary s).map f).sum = (s.map f).sum :=
  ((sortSummary_perm s).map f).sum_eq

theorem summary_labels_nodup (df : DataFrame) :
    ((sortSummary (buildSummary df)).map (fun r => r.mecra)).Nodup := by
  have hperm : (sortSummary (buildSummary df)).map (fun r => r.mecra) ~
      (buildSummary df).map (fun r => r.mecra) := (sortSummary_perm _).map _
  rw [hperm.nodup_iff, buildSummary_map_mecra]
  exact groupKeys_nodup df

/-! ### Concrete frames and result extractors used by witnesses -/

/-- The merged frame of a successful extraction (a zero frame on error). -/
def extractMerged (files : List (Option DataFrame)) : DataFrame :=
  match extract_and_merge_data files with
  | Except.ok (m, _) => m
  | Except.error _ => ⟨[], []⟩

/-- The ordered summary of a successful extraction (empty on error). -/
def extractSummary (files : List (Option DataFrame)) : List SummaryRow :=
  match extract_and_merge_data files with
  | Except.ok (_, s) => s
  | Except.error _ => []

/-- The data object of a successful preview (a zero object otherwise). -/
def previewDataOf (files : List (Option DataFrame)) : PreviewData :=
  match preview_report files with
  | PreviewResponse.ok d => d
  | _ => ⟨[], ⟨0, none, none⟩, ⟨[], [], [], []⟩⟩

/-- Example upload: a press row, an internet row, and a row with missing
channel. -/
def exampleDF : DataFrame :=
  ⟨["Mecra", "Erişim"],
   [[("Mecra", Cell.str "Yazılı Basın Günlük"), ("Erişim", Cell.num 100)],
    [("Mecra", Cell.str "Elektronik Basın"), ("Erişim", Cell.str "50")],
    [("Mecra", Cell.missing), ("Erişim", Cell.num 7)]]⟩

/-- Example upload whose only row has an empty-string channel value. -/
def emptyChannelDF : DataFrame :=
  ⟨["Mecra"], [[("Mecra", Cell.str "")]]⟩

/-- Example upload lacking a Mecra column, with two rows. -/
def noChannelDF : DataFrame :=
  ⟨["Başlık"], [[("Başlık", Cell.str "a")], [("Başlık", Cell.str "b")]]⟩

/-- Example upload lacking a Mecra column and containing no rows. -/
def emptyRowsDF : DataFrame := ⟨["Başlık"], []⟩

/-! ### Claims -/

/-- C1 counterexample: the source does not map an empty Channel value to
"Diğer".  A retained record whose raw `Mecra` value is the empty string keeps
the empty string as its group label (rule 5's passthrough), while the spec's
literal rule 1 ("missing/empty → Diğer") would give "Diğer". -/
theorem C1_counterexample :
    map_mecra (Cell.str "") = "" ∧ map_mecra_spec (Cell.str "") = "Diğer" ∧
    (extractMerged [some emptyChannelDF]).rows.map (fun r => getCol r "Mecra_Grup") =
      [Cell.str ""] := by
  refine ⟨by decide, by decide, by decide⟩

/-- C1 (amended): every record retained in the unified dataset carries a
`Mecra_Grup` equal to `map_mecra` of its raw `Mecra` value (the constant
"Diğer" when the merged table has no Mecra column), and `map_mecra` follows
the fixed precedence chain — a missing (NaN) value yields "Diğer"; any
present value is stripped and matched case-sensitively: "Elektronik Basın"
substring → "İnternet", else "Görsel Basın" → "TV", else "Yazılı Basın" →
"Yazılı Basın", else the trimmed raw value itself is kept (so a
present-but-empty string yields the empty label, not "Diğer"). -/
theorem C1_channel_normalization (files : List (Option DataFrame)) (m : DataFrame)
    (s : List SummaryRow) (h : extract_and_merge_data files = Except.ok (m, s)) :
    (∀ r ∈ m.rows, getCol r "Mecra_Grup" =
      Cell.str (if (baseOf files).cols.contains "Mecra"
        then map_mecra (getCol r "Mecra") else "Diğer")) ∧
    map_mecra Cell.missing = "Diğer" ∧
    (∀ v : Cell, v ≠ Cell.missing →
      map_mecra v =
        (if strContains (strTrim (cellStr v)) "Elektronik Basın" then "İnternet"
         else if strContains (strTrim (cellStr v)) "Görsel Basın" then "TV"
         else if strContains (strTrim (cellStr v)) "Yazılı Basın" then "Yazılı Basın"
         else strTrim (cellStr v))) ∧
    map_mecra (Cell.str "") = "" := by
  obtain ⟨hm, -, -, -⟩ := extract_ok_elim h
  subst hm
  refine ⟨?_, rfl, ?_, rfl⟩
  · intro r hr
    rw [mergedOf_rows] at hr
    rcases List.mem_map.mp hr with ⟨r0, hr0, rfl⟩
    rw [getCol_grup_merged_row, getCol_mecra_merged_row]
  · intro v hv
    cases v with
    | missing => exact absurd rfl hv
    | str t => rfl
    | num q => rfl

theorem C1_witness :
    map_mecra Cell.missing = "Diğer" ∧ map_mecra (Cell.str "") = "" :=
  have h := C1_channel_normalization [some exampleDF] (extractMerged [some exampleDF])
    (extractSummary [some exampleDF]) rfl
  ⟨h.2.1, h.2.2.2⟩

/-- C2 counterexample: a batch whose only row has the empty string as its
Channel value — the row is retained in the unified dataset and contributes a
summary row with the empty label, although its Channel is empty. -/
theorem C2_counterexample :
    (extractMerged [some emptyChannelDF]).rows.map (fun r => getCol r "Mecra") =
      [Cell.str ""] ∧
    (extractSummary [some emptyChannelDF]).map (fun r => r.mecra) = [""] ∧
    Cell.str "" ≠ Cell.missing := by decide

/-- C2 (amended): when the merged table has a Mecra column, every record whose
Mecra value is missing (the NaN marker) is dropped before normalization, so no
retained record has a missing Mecra value.  A present-but-empty string is
retained, and when no file contributes a Mecra column nothing is dropped. -/
theorem C2_drop_missing_channel (files : List (Option DataFrame)) (m : DataFrame)
    (s : List SummaryRow) (h : extract_and_merge_data files = Except.ok (m, s))
    (hm : (baseOf files).cols.contains "Mecra" = true) :
    ∀ r ∈ m.rows, getCol r "Mecra" ≠ Cell.missing := by
  obtain ⟨hmm, -, -, -⟩ := extract_ok_elim h
  subst hmm
  intro r hr
  rw [mergedOf_rows] at hr
  rcases List.mem_map.mp hr with ⟨r0, hr0, rfl⟩
  rw [getCol_mecra_merged_row]
  have hnot := dropnaMecra_notna (baseOf files) hm r0 hr0
  unfold notnaMecra at hnot
  intro hmiss
  rw [hmiss] at hnot
  simp at hnot

theorem C2_witness :
    getCol ((extractMerged [some exampleDF]).rows.headI) "Mecra" ≠ Cell.missing :=
  C2_drop_missing_channel [some exampleDF] (extractMerged [some exampleDF])
    (extractSummary [some exampleDF]) rfl (by decide)
    ((extractMerged [some exampleDF]).rows.headI) (by decide)

/-- A batch whose channel labels are 17 distinct unmatched strings: every
group gets the shared fallback priority 99, and the summary exceeds the size
below which numpy's unstable introsort happens to behave stably. -/
def manyGroupsDF : DataFrame :=
  ⟨["Mecra"],
   (["gA", "gB", "gC", "gD", "gE", "gF", "gG", "gH", "gI", "gJ", "gK", "gL",
     "gM", "gN", "gO", "gP", "gQ"]).map (fun g => [("Mecra", Cell.str g)])⟩

/-- C3 (code bug): the source sorts the summary with
`sort_values('sort_order')` under the default `kind='quicksort'`, whose
documented contract is only a priority-sorted permutation — it does not
promise the stability the claim (and spec §4.5) demand.  Evaluating the
pipeline at a batch with 17 equal-priority groups: the produced summary is a
priority-sorted permutation of the grouping output, and a second, different
priority-sorted permutation of the same grouping output exists — so the
quicksort contract does not determine the order of the equal-priority rows,
and the claimed stable order is not guaranteed by the code. -/
theorem C3_unstable_sort_kind :
    extractSummary [some manyGroupsDF] ~
      buildSummary (extractMerged [some manyGroupsDF]) ∧
    (extractSummary [some manyGroupsDF]).Pairwise summaryLE ∧
    (buildSummary (extractMerged [some manyGroupsDF])).reverse ≠
      extractSummary [some manyGroupsDF] ∧
    (buildSummary (extractMerged [some manyGroupsDF])).reverse ~
      buildSummary (extractMerged [some manyGroupsDF]) ∧
    ((buildSummary (extractMerged [some manyGroupsDF])).reverse).Pairwise summaryLE := by
  refine ⟨by decide, by decide, by decide, by decide, by decide⟩

/-- C4: the totals computed from the ordered summary sum each numeric summary
column — the count total always, and each metric total both equals the sum of
that field across the summary rows and the column sum over the full unified
dataset whenever that column is present. -/
theorem C4_totals (files : List (Option DataFrame)) (m : DataFrame)
    (s : List SummaryRow) (h : extract_and_merge_data files = Except.ok (m, s)) :
    (computeTotals s (m.cols.contains "Erişim") (m.cols.contains "Re.Eş. (TRY)")).haberAdedi
        = (s.map (fun r => r.haberAdedi)).sum ∧
    (s.map (fun r => r.haberAdedi)).sum = m.rows.length ∧
    (m.cols.contains "Erişim" = true →
      (computeTotals s (m.cols.contains "Erişim") (m.cols.contains "Re.Eş. (TRY)")).erisim
          = some ((s.map (fun r => r.erisim.getD 0)).sum) ∧
      (s.map (fun r => r.erisim.getD 0)).sum =
        (m.rows.map (fun r => cellNum (getCol r "Erişim"))).sum) ∧
    (m.cols.contains "Re.Eş. (TRY)" = true →
      (computeTotals s (m.cols.contains "Erişim") (m.cols.contains "Re.Eş. (TRY)")).reklam
          = some ((s.map (fun r => r.reklam.getD 0)).sum) ∧
      (s.map (fun r => r.reklam.getD 0)).sum =
        (m.rows.map (fun r => cellNum (getCol r "Re.Eş. (TRY)"))).sum) := by
  obtain ⟨-, hs, -, -⟩ := extract_ok_elim h
  subst hs
  refine ⟨rfl, ?_, ?_, ?_⟩
  · rw [sortSummary_map_sum]
    exact buildSummary_count_sum m
  · intro hE
    constructor
    · have hE' : "Erişim" ∈ m.cols := by simpa using hE
      simp [computeTotals, hE']
    · rw [sortSummary_map_sum]
      exact buildSummary_erisim_sum m hE
  · intro hR
    constructor
    · have hR' : "Re.Eş. (TRY)" ∈ m.cols := by simpa using hR
      simp [computeTotals, hR']
    · rw [sortSummary_map_sum]
      exact buildSummary_reklam_sum m hR

theorem C4_witness :
    ((extractSummary [some exampleDF]).map (fun r => r.haberAdedi)).sum =
      (extractMerged [some exampleDF]).rows.length :=
  (C4_totals [some exampleDF] (extractMerged [some exampleDF])
    (extractSummary [some exampleDF]) rfl).2.1

/-- C5: the aggregation is a partition — the summary labels are distinct and
are exactly the observed group labels, each summary row counts its group's
records (never zero), each retained record belongs to exactly one summary
row's group, and the counts sum to the number of retained records. -/
theorem C5_partition (files : List (Option DataFrame)) (m : DataFrame)
    (s : List SummaryRow) (h : extract_and_merge_data files = Except.ok (m, s)) :
    (s.map (fun r => r.mecra)).Nodup ∧
    (∀ g : String, g ∈ s.map (fun r => r.mecra) ↔ g ∈ m.rows.map rowGroup) ∧
    (∀ row ∈ s, row.haberAdedi = countLabel m row.mecra ∧ 0 < row.haberAdedi) ∧
    (∀ r ∈ m.rows, ∃! row, row ∈ s ∧ row.mecra = rowGroup r) ∧
    (s.map (fun r => r.haberAdedi)).sum = m.rows.length := by
  obtain ⟨-, hs, -, -⟩ := extract_ok_elim h
  subst hs
  have hperm : sortSummary (buildSummary m) ~ buildSummary m := sortSummary_perm _
  have hlabels : (sortSummary (buildSummary m)).map (fun r => r.mecra) ~ groupKeys m := by
    rw [← buildSummary_map_mecra m]
    exact hperm.map _
  have hnodup := summary_labels_nodup m
  have hmem : ∀ g : String,
      g ∈ (sortSummary (buildSummary m)).map (fun r => r.mecra) ↔
        g ∈ m.rows.map rowGroup := by
    intro g
    rw [hlabels.mem_iff, mem_groupKeys]
  refine ⟨hnodup, hmem, ?_, ?_, ?_⟩
  · intro row hrow
    have hrow' : row ∈ buildSummary m := hperm.mem_iff.mp hrow
    obtain ⟨hcount, -, -, hkey⟩ := mem_buildSummary_spec m row hrow'
    refine ⟨hcount, ?_⟩
    have hobs : row.mecra ∈ m.rows.map rowGroup := (mem_groupKeys m _).mp hkey
    rcases List.mem_map.mp hobs with ⟨r, hrm, hrg⟩
    rw [hcount]
    unfold countLabel
    have hrfilter : r ∈ m.rows.filter (fun r' => rowGroup r' == row.mecra) :=
      List.mem_filter.mpr ⟨hrm, by simp [hrg]⟩
    exact List.length_pos.mpr (List.ne_nil_of_mem hrfilter)
  · intro r hrm
    have hg : rowGroup r ∈ (sortSummary (buildSummary m)).map (fun p => p.mecra) :=
      (hmem _).mpr (List.mem_map_of_mem rowGroup hrm)
    rcases List.mem_map.mp hg with ⟨row, hrow, hrowg⟩
    refine ⟨row, ⟨hrow, hrowg⟩, ?_⟩
    rintro row' ⟨hrow', hrowg'⟩
    exact List.inj_on_of_nodup_map hnodup hrow' hrow (by rw [hrowg', hrowg])
  · rw [sortSummary_map_sum]
    exact buildSummary_count_sum m

theorem C5_witness :
    ((extractSummary [some exampleDF]).map (fun r => r.mecra)).Nodup :=
  (C5_partition [some exampleDF] (extractMerged [some exampleDF])
    (extractSummary [some exampleDF]) rfl).1

/-- C6: the merge fails iff no file was supplied or none parsed — with the two
distinct error messages of the source — and when at least one file parses, the
result equals the extraction run on just the parseable files, so a corrupt
blob is skipped without aborting the batch. -/
theorem C6_error_behavior (files : List (Option DataFrame)) :
    (extract_and_merge_data files = Except.error ⟨400, "Dosya yüklenmedi"⟩ ↔ files = []) ∧
    (extract_and_merge_data files = Except.error ⟨400, "Geçerli bir Excel dosyası okunamadı"⟩
      ↔ (files ≠ [] ∧ files.filterMap id = [])) ∧
    ((∃ e : HTTPError, extract_and_merge_data files = Except.error e) ↔
      (files = [] ∨ files.filterMap id = [])) ∧
    (files.filterMap id ≠ [] →
      extract_and_merge_data files =
        extract_and_merge_data ((files.filterMap id).map some)) := by
  by_cases h1 : files = []
  · subst h1
    refine ⟨by simp [extract_empty rfl], ?_, ?_, ?_⟩
    · rw [extract_empty rfl]
      simp
    · rw [extract_empty rfl]
      simp
    · intro h2
      exact absurd rfl h2
  · by_cases h2 : files.filterMap id = []
    · refine ⟨?_, ?_, ?_, ?_⟩
      · rw [extract_none_valid h1 h2]
        simp [h1]
      · rw [extract_none_valid h1 h2]
        simp [h1, h2]
      · rw [extract_none_valid h1 h2]
        simp [h2]
      · intro h3
        exact absurd h2 h3
    · have he := extract_valid h1 h2
      refine ⟨?_, ?_, ?_, ?_⟩
      · rw [he]
        simp [h1]
      · rw [he]
        simp [h1, h2]
      · rw [he]
        simp [h1, h2]
      · intro _
        have hmap : ((files.filterMap id).map some).filterMap id = files.filterMap id := by
          rw [List.filterMap_map]
          simp
        have hne2 : (files.filterMap id).map some ≠ [] := by
          intro hx
          exact h2 (List.map_eq_nil_iff.mp hx)
        rw [he, extract_valid hne2 (by rw [hmap]; exact h2)]
        unfold mergedOf baseOf
        rw [hmap]

theorem C6_witness :
    extract_and_merge_data [some exampleDF, none] =
      extract_and_merge_data (([some exampleDF, none].filterMap id).map some) :=
  (C6_error_behavior [some exampleDF, none]).2.2.2 (by decide)

/-- C7: when a metric column exists in the merged input, its every cell in the
unified dataset is the numeric coercion of the original cell — numbers kept,
parseable strings parsed, anything else (missing or unparseable) becoming 0;
column presence is unchanged by the coercion, so an absent column stays
absent and is never invented; non-metric cells are untouched. -/
theorem C7_numeric_coercion (files : List (Option DataFrame)) (m : DataFrame)
    (s : List SummaryRow) (h : extract_and_merge_data files = Except.ok (m, s)) :
    m.cols.contains "Erişim" = (baseOf files).cols.contains "Erişim" ∧
    m.cols.contains "Re.Eş. (TRY)" = (baseOf files).cols.contains "Re.Eş. (TRY)" ∧
    List.Forall₂ (fun rm r0 =>
        ((baseOf files).cols.contains "Erişim" = true →
          getCol rm "Erişim" = coerceCell (getCol r0 "Erişim")) ∧
        ((baseOf files).cols.contains "Re.Eş. (TRY)" = true →
          getCol rm "Re.Eş. (TRY)" = coerceCell (getCol r0 "Re.Eş. (TRY)")) ∧
        (∀ c : String, ¬ c = "Erişim" → ¬ c = "Re.Eş. (TRY)" → ¬ c = "Mecra_Grup" →
          getCol rm c = getCol r0 c))
      m.rows (dropnaMecra (baseOf files)).rows ∧
    coerceCell Cell.missing = Cell.num 0 ∧
    (∀ t : String, coerceCell (Cell.str t) = Cell.num ((parseNumeric t).getD 0)) ∧
    (∀ q : ℚ, coerceCell (Cell.num q) = Cell.num q) := by
  obtain ⟨hm, -, -, -⟩ := extract_ok_elim h
  subst hm
  refine ⟨mergedOf_cols_contains files _ (by decide),
          mergedOf_cols_contains files _ (by decide), ?_, rfl, fun t => rfl, fun q => rfl⟩
  rw [mergedOf_rows, List.forall₂_map_left_iff, List.forall₂_same]
  intro r0 hr0
  refine ⟨?_, ?_, ?_⟩
  · intro hEt
    rw [getCol_coerceRow_erisim, hEt, if_pos rfl,
        getCol_setCol_ne _ _ _ _ (by decide)]
  · intro hRt
    rw [getCol_coerceRow_reklam, hRt, if_pos rfl,
        getCol_setCol_ne _ _ _ _ (by decide)]
  · intro c hc1 hc2 hc3
    rw [getCol_coerceRow_ne _ _ _ _ hc1 hc2, getCol_setCol_ne _ _ _ _ hc3]

theorem C7_witness :
    (extractMerged [some exampleDF]).cols.contains "Erişim" =
      (baseOf [some exampleDF]).cols.contains "Erişim" :=
  (C7_numeric_coercion [some exampleDF] (extractMerged [some exampleDF])
    (extractSummary [some exampleDF]) rfl).1

/-- C8: the preview's chart arrays are exactly the per-row projections of the
ordered summary — labels and haber_adedi always parallel, erisim and reklam
the parallel projection when the source column exists and the empty array
when it does not — and no totals entry is included (exactly one entry per
summary row). -/
theorem C8_chart_data (files : List (Option DataFrame)) (m : DataFrame)
    (s : List SummaryRow) (d : PreviewData)
    (h : extract_and_merge_data files = Except.ok (m, s))
    (hd : preview_report files = PreviewResponse.ok d) :
    d.summary_table = s ∧
    d.chart_data.labels = s.map (fun r => r.mecra) ∧
    d.chart_data.haber_adedi = s.map (fun r => r.haberAdedi) ∧
    d.chart_data.haber_adedi.length = d.chart_data.labels.length ∧
    d.chart_data.labels.length = s.length ∧
    (m.cols.contains "Erişim" = true →
      d.chart_data.erisim = s.map (fun r => r.erisim.getD 0) ∧
      d.chart_data.erisim.length = d.chart_data.labels.length) ∧
    (m.cols.contains "Erişim" = false → d.chart_data.erisim = []) ∧
    (m.cols.contains "Re.Eş. (TRY)" = true →
      d.chart_data.reklam = s.map (fun r => r.reklam.getD 0) ∧
      d.chart_data.reklam.length = d.chart_data.labels.length) ∧
    (m.cols.contains "Re.Eş. (TRY)" = false → d.chart_data.reklam = []) := by
  have hp : preview_report files = PreviewResponse.ok
      { summary_table := s
        totals := computeTotals s (m.cols.contains "Erişim") (m.cols.contains "Re.Eş. (TRY)")
        chart_data :=
          { labels := s.map (fun r => r.mecra)
            haber_adedi := s.map (fun r => r.haberAdedi)
            erisim := if m.cols.contains "Erişim" then s.map (fun r => r.erisim.getD 0) else []
            reklam := if m.cols.contains "Re.Eş. (TRY)" then s.map (fun r => r.reklam.getD 0)
              else [] } } := by
    unfold preview_report
    rw [h]
  rw [hp] at hd
  injection hd with hd1
  subst hd1
  refine ⟨rfl, rfl, rfl, by simp, by simp, ?_, ?_, ?_, ?_⟩
  · intro hE
    have hE' : "Erişim" ∈ m.cols := by simpa using hE
    exact ⟨by simp [hE'], by simp [hE']⟩
  · intro hE
    have hE' : "Erişim" ∉ m.cols := by simpa using hE
    simp [hE']
  · intro hR
    have hR' : "Re.Eş. (TRY)" ∈ m.cols := by simpa using hR
    exact ⟨by simp [hR'], by simp [hR']⟩
  · intro hR
    have hR' : "Re.Eş. (TRY)" ∉ m.cols := by simpa using hR
    simp [hR']

theorem C8_witness :
    (previewDataOf [some exampleDF]).chart_data.labels =
      (extractSummary [some exampleDF]).map (fun r => r.mecra) :=
  (C8_chart_data [some exampleDF] (extractMerged [some exampleDF])
    (extractSummary [some exampleDF]) (previewDataOf [some exampleDF]) rfl rfl).2.1

/-- C9 counterexample: a preview that fails on empty input does not produce
the `{"success": false, "error": ...}` body: the HTTPException propagates
(`except HTTPException: raise`), so the response is an HTTP error, not a
success-false JSON body. -/
theorem C9_counterexample :
    preview_report [] = PreviewResponse.httpError ⟨400, "Dosya yüklenmedi"⟩ ∧
    isSuccessFalseBody (preview_report []) = false :=
  ⟨rfl, rfl⟩

/-- C9 (amended): when no valid input exists, the preview endpoint re-raises
the pipeline's HTTPException — an HTTP error carrying the human-readable
detail message — rather than returning a `{"success": false, "error": ...}`
body; that shape is reserved for unexpected generation failures. -/
theorem C9_error_shape (files : List (Option DataFrame))
    (h : files.filterMap id = []) :
    preview_report files = PreviewResponse.httpError
      ⟨400, if files = [] then "Dosya yüklenmedi"
            else "Geçerli bir Excel dosyası okunamadı"⟩ ∧
    isSuccessFalseBody (preview_report files) = false := by
  by_cases hf : files = []
  · subst hf
    exact ⟨by decide, rfl⟩
  · have he := extract_none_valid hf h
    constructor
    · unfold preview_report
      rw [he, if_neg hf]
    · unfold preview_report isSuccessFalseBody
      rw [he]

theorem C9_witness :
    preview_report [none] = PreviewResponse.httpError
      ⟨400, if ([none] : List (Option DataFrame)) = [] then "Dosya yüklenmedi"
            else "Geçerli bir Excel dosyası okunamadı"⟩ :=
  (C9_error_shape [none] (by decide)).1

/-- A list whose members all equal `a` dedups to `[a]`. -/
theorem dedup_const {α : Type} [DecidableEq α] (a : α) :
    ∀ l : List α, l ≠ [] → (∀ x ∈ l, x = a) → l.dedup = [a] := by
  intro l
  induction l with
  | nil => intro hne _; exact absurd rfl hne
  | cons b bs ih =>
    intro _ hall
    have hb : b = a := hall b (List.mem_cons_self b bs)
    subst hb
    by_cases hbs : bs = []
    · subst hbs
      simp
    · have hded : bs.dedup = [b] :=
        ih hbs (fun x hx => hall x (List.mem_cons_of_mem b hx))
      rw [List.dedup_cons_of_mem, hded]
      rcases List.exists_mem_of_ne_nil bs hbs with ⟨y, hy⟩
      have : y = b := hall y (List.mem_cons_of_mem b hy)
      rw [← this]
      exact hy

/-- C10 counterexample: a parsed file with no Mecra column and no rows.  No
record exists and the summary is empty — not "exactly one group row". -/
theorem C10_counterexample :
    (baseOf [some emptyRowsDF]).cols.contains "Mecra" = false ∧
    (extractMerged [some emptyRowsDF]).rows.length = 0 ∧
    (extractSummary [some emptyRowsDF]).length = 0 := by decide

/-- C10 (amended): if the merged table has no Mecra column, no record is
dropped and every record is assigned ChannelGroup "Diğer"; when at least one
record exists the summary is the single "Diğer" row counting all records;
with zero records the summary is empty (no group row is emitted). -/
theorem C10_no_channel_column (files : List (Option DataFrame)) (m : DataFrame)
    (s : List SummaryRow) (h : extract_and_merge_data files = Except.ok (m, s))
    (hnc : (baseOf files).cols.contains "Mecra" = false) :
    m.rows.length = (baseOf files).rows.length ∧
    (∀ r ∈ m.rows, rowGroup r = "Diğer") ∧
    (m.rows ≠ [] → s.map (fun r => r.mecra) = ["Diğer"] ∧
      s.map (fun r => r.haberAdedi) = [m.rows.length]) ∧
    (m.rows = [] → s = []) := by
  obtain ⟨hm, hs, -, -⟩ := extract_ok_elim h
  have hdrop : dropnaMecra (baseOf files) = baseOf files := dropnaMecra_id _ hnc
  have hrows : m.rows = (baseOf files).rows.map (fun r =>
      coerceRow ((baseOf files).cols.contains "Erişim")
        ((baseOf files).cols.contains "Re.Eş. (TRY)")
        (setCol r "Mecra_Grup" (Cell.str
          (if (baseOf files).cols.contains "Mecra"
           then map_mecra (getCol r "Mecra") else "Diğer")))) := by
    rw [hm, mergedOf_rows, hdrop]
  have hgrp : ∀ r ∈ m.rows, rowGroup r = "Diğer" := by
    intro r hr
    rw [hrows] at hr
    rcases List.mem_map.mp hr with ⟨r0, -, rfl⟩
    rw [rowGroup_merged_row, if_neg (by rw [hnc]; simp)]
  refine ⟨by rw [hrows, List.length_map], hgrp, ?_, ?_⟩
  · intro hne
    have hmapne : m.rows.map rowGroup ≠ [] := by
      intro hx
      exact hne (List.map_eq_nil_iff.mp hx)
    have hall : ∀ x ∈ m.rows.map rowGroup, x = "Diğer" := by
      intro x hx
      rcases List.mem_map.mp hx with ⟨r, hr, rfl⟩
      exact hgrp r hr
    have hkeys : groupKeys m = ["Diğer"] := by
      unfold groupKeys
      rw [dedup_const "Diğer" _ hmapne hall]
      rfl
    have hcount : countLabel m "Diğer" = m.rows.length := by
      unfold countLabel
      rw [List.filter_eq_self.mpr]
      intro r hr
      simp [hgrp r hr]
    have hbuild : buildSummary m = [⟨"Diğer", countLabel m "Diğer",
        (if m.cols.contains "Erişim" then some (sumColFor m "Erişim" "Diğer") else none),
        (if m.cols.contains "Re.Eş. (TRY)" then some (sumColFor m "Re.Eş. (TRY)" "Diğer")
          else none)⟩] := by
      unfold buildSummary
      rw [hkeys]
      rfl
    rw [hs, hbuild]
    constructor
    · simp [sortSummary]
    · simp [sortSummary, hcount]
  · intro hz
    have hmapz : m.rows.map rowGroup = [] := by rw [hz]; rfl
    have hkeys : groupKeys m = [] := by
      unfold groupKeys
      rw [hmapz]
      rfl
    rw [hs]
    unfold buildSummary
    rw [hkeys]
    rfl

theorem C10_witness :
    (extractSummary [some noChannelDF]).map (fun r => r.mecra) = ["Diğer"] :=
  ((C10_no_channel_column [some noChannelDF] (extractMerged [some noChannelDF])
      (extractSummary [some noChannelDF]) rfl (by decide)).2.2.1 (by decide)).1

end MTMReport
